import Mathlib

/-!
Verification of the SPIN Training Bot inference/session core.

Shallow embedding of the Python sources:
- `versions/v4.0/services/llm_service.py`   (LLM gateway: retries + fallback)
- `versions/v4.0/services/training_service.py` / `base_training_service.py`
  (completion check, clarity updates, feedback TTL cache)
- `versions/v4.0/services/user_service.py`  (session reset, stats update)
- `versions/v4.0/bot.py`                    (feedback anti-duplication guard)
- `modules/active_listening/detector.py`    (hybrid contextual-question check)

Python `int` is modelled as `Int`, `float` timestamps as `Int` (integral
seconds; only ordering and differences of timestamps matter), strings as
`String` / `List Char`, exceptions as explicit error results, and async
provider calls as oracle parameters describing each attempt's outcome.
-/

namespace SpinBot

/-! ## LLM gateway (`llm_service.py`) -/

/-- Request kind, `Literal['response', 'feedback', 'classification', 'context']`. -/
inductive Kind where
  | response
  | feedback
  | classification
  | context
deriving DecidableEq, Repr

/-- Outcome of a single provider invocation (`_invoke`): either text or a
raised exception carrying a message. -/
inductive AttemptResult where
  | ok (text : String)
  | err (msg : String)
deriving DecidableEq, Repr

/-- Does the attempt model a raised exception? -/
def AttemptResult.isErr : AttemptResult → Bool
  | .ok _ => false
  | .err _ => true

/-- Oracle describing the environment: the outcome of the i-th primary
attempt and of the single fallback attempt, given the prompts. -/
structure LLMOracle where
  primary : Nat → String → String → AttemptResult
  fallback : String → String → AttemptResult

/-- `Config.LLM_MAX_RETRIES` default from `config.py`. -/
def LLM_MAX_RETRIES : Nat := 1

/-- The fixed user-safe error string returned by `call_llm` on total failure. -/
def llmErrorString : String :=
  "Произошла ошибка при генерации ответа. Попробуйте ещё раз позже."

/-- The primary-attempt loop `for attempt in range(retries + 1)`: returns the
first successful text (if any) together with the number of `_invoke` calls made. -/
def tryPrimary (f : Nat → AttemptResult) : Nat → Nat → Option String × Nat
  | _, 0 => (none, 0)
  | start, n + 1 =>
    match f start with
    | .ok t => (some t, 1)
    | .err _ =>
      let r := tryPrimary f (start + 1) n
      (r.1, r.2 + 1)

/-- Trace of one `call_llm` execution: how many primary `_invoke` calls were
made, whether the fallback was invoked, and the returned string. -/
structure CallTrace where
  primaryCalls : Nat
  fallbackCalled : Bool
  result : String
deriving DecidableEq, Repr

/-- `LLMService.call_llm`, instrumented.  `retries = 0 if kind == 'feedback'
else LLM_MAX_RETRIES`; the loop makes `retries + 1` primary attempts and
returns on the first success; only when all fail is the fallback tried once;
a fallback failure yields the fixed error string instead of raising. -/
def call_llm_traced (maxRetries : Nat) (kind : Kind)
    (system_prompt user_message : String) (oracle : LLMOracle) : CallTrace :=
  match tryPrimary (fun i => oracle.primary i system_prompt user_message) 0
      ((if kind = Kind.feedback then 0 else maxRetries) + 1) with
  | (some t, k) => ⟨k, false, t⟩
  | (none, k) =>
    match oracle.fallback system_prompt user_message with
    | .ok t => ⟨k, true, t⟩
    | .err _ => ⟨k, true, llmErrorString⟩

/-- `LLMService.call_llm`: the returned text. -/
def call_llm (maxRetries : Nat) (kind : Kind)
    (system_prompt user_message : String) (oracle : LLMOracle) : String :=
  (call_llm_traced maxRetries kind system_prompt user_message oracle).result

/-! ## Completion check (`check_training_completion`) -/

/-- `scenario_config['game_rules']` slice used by the completion check. -/
structure GameRules where
  max_questions : Int
  target_clarity : Int
  min_questions_for_completion : Int
deriving DecidableEq, Repr

/-- `TrainingService.check_training_completion` /
`BaseTrainingService.check_training_completion` as a function of the session
counters it reads. -/
def check_training_completion (question_count clarity_level : Int)
    (rules : GameRules) : Bool × String :=
  if question_count ≥ rules.max_questions then
    (true, "max_questions")
  else if clarity_level ≥ rules.target_clarity ∧
      question_count ≥ rules.min_questions_for_completion then
    (true, "clarity_reached")
  else
    (false, "")

/-! ## Clarity updates (`process_question` / `apply_active_listening_bonus`)

`training_service.py` lines 117-123 apply the per-type increment and clamp:
`session['clarity_level'] += ...calculate_clarity_increase(qtype)` followed by
`session['clarity_level'] = min(session['clarity_level'], 100)`; the
active-listening bonus (line 164, and
`BaseTrainingService.apply_active_listening_bonus`) applies
`min(100, clarity_level + bonus_points)`.  The increment returned by
`calculate_clarity_increase` is the question type's configured weight
(that module is outside `src/`; the weight enters here as the event's field).
-/

/-- One accepted question submission: the classified type's clarity weight
and, when the question was detected as contextual, the bonus points. -/
structure QuestionEvent where
  clarity_increase : Int
  contextual : Bool
  bonus_points : Int
deriving DecidableEq, Repr

/-- Clarity after the per-type increment: `min(clarity + increase, 100)`. -/
def clarity_after_type_increment (clarity increase : Int) : Int :=
  min (clarity + increase) 100

/-- `apply_active_listening_bonus` on the clarity field:
`min(100, clarity + bonus_points)`. -/
def apply_active_listening_bonus (clarity bonus_points : Int) : Int :=
  min 100 (clarity + bonus_points)

/-- Clarity after processing one accepted question (type increment with
clamp, then the contextual bonus with clamp, as in `process_question`). -/
def process_question_clarity (clarity : Int) (e : QuestionEvent) : Int :=
  if e.contextual then
    apply_active_listening_bonus
      (clarity_after_type_increment clarity e.clarity_increase) e.bonus_points
  else
    clarity_after_type_increment clarity e.clarity_increase

/-- Clarity after a whole sequence of accepted questions, starting from the
initial `clarity_level = 0` of a fresh session. -/
def run_session_clarity (events : List QuestionEvent) : Int :=
  events.foldl process_question_clarity 0

/-! ## User data (`user_service.py`) -/

/-- `stats['level_up_notification']`. -/
structure LevelUpNotification where
  should_show : Bool
  old_level : Int
  new_level : Int
deriving DecidableEq, Repr

/-- The session dict created by `_init_user_data` / `reset_session`.
`case_data` is an opaque payload, modelled as an optional string. -/
structure Session where
  question_count : Int
  clarity_level : Int
  per_type_counts : List (String × Int)
  client_case : String
  case_data : Option String
  last_question_type : String
  chat_state : String
  contextual_questions : Int
  last_client_response : String
  context_streak : Int
deriving DecidableEq, Repr

/-- The stats dict created by `_init_user_data`; survives session resets. -/
structure Stats where
  total_trainings : Int
  total_questions : Int
  best_score : Int
  total_xp : Int
  current_level : Int
  achievements_unlocked : List String
  level_up_notification : LevelUpNotification
  maestro_streak : Int
  last_training_date : Option String
deriving DecidableEq, Repr

/-- One user's record: `{'session': ..., 'stats': ...}`. -/
structure UserData where
  session : Session
  stats : Stats
deriving DecidableEq, Repr

/-- `UserService.reset_session`: replaces the session dict with a fresh one
(`chat_state = 'waiting_start'`, zeroed counters, `per_type_counts` zeroed
over the scenario's question-type ids) and leaves `stats` untouched. -/
def reset_session (u : UserData) (question_type_ids : List String) : UserData :=
  { u with
    session :=
      { question_count := 0
        clarity_level := 0
        per_type_counts := question_type_ids.map (fun t => (t, 0))
        client_case := ""
        case_data := none
        last_question_type := ""
        chat_state := "waiting_start"
        contextual_questions := 0
        last_client_response := ""
        context_streak := 0 } }

/-- One entry of `scenario_config['ranking']['levels']`. -/
structure LevelDef where
  level : Int
  min_xp : Int
deriving DecidableEq, Repr

/-- `UserService._calculate_level`: the maximum of the levels whose
`min_xp ≤ xp`, defaulting to 1 when none qualifies. -/
def calculate_level (xp : Int) (levels : List LevelDef) : Int :=
  match (levels.filter (fun l => xp ≥ l.min_xp)).map (fun l => l.level) with
  | [] => 1
  | x :: xs => xs.foldl max x

/-- `UserService.update_stats`: one completed training's effect on stats.
`session_score` is the computed total score, `now_date` the ISO timestamp. -/
def update_stats (u : UserData) (session_score : Int)
    (levels : List LevelDef) (now_date : String) : UserData :=
  { u with
    stats :=
      { u.stats with
        total_trainings := u.stats.total_trainings + 1
        total_questions := u.stats.total_questions + u.session.question_count
        best_score := max u.stats.best_score session_score
        last_training_date := some now_date
        total_xp := u.stats.total_xp + session_score
        current_level := calculate_level (u.stats.total_xp + session_score) levels
        maestro_streak :=
          if session_score ≥ 221 then u.stats.maestro_streak + 1 else 0
        level_up_notification :=
          if calculate_level (u.stats.total_xp + session_score) levels >
              u.stats.current_level then
            ⟨true, u.stats.current_level,
              calculate_level (u.stats.total_xp + session_score) levels⟩
          else u.stats.level_up_notification } }

/-! ## Feedback TTL cache (`get_feedback`) -/

/-- The single-slot cache `session['feedback_cache']`:
`{'prompt_hash': ..., 'ts': ..., 'text': ...}`. -/
structure FeedbackCacheEntry where
  prompt_hash : String
  ts : Int
  text : String
deriving DecidableEq, Repr

/-- The slice of the session read and written by `get_feedback`. -/
structure FeedbackSession where
  last_question_type : String
  feedback_cache : Option FeedbackCacheEntry
deriving DecidableEq, Repr

/-- `ttl_sec = 20 * 60`. -/
def feedback_ttl_sec : Int := 20 * 60

/-- The cache-hit test of `get_feedback`:
`cached_hash == prompt_hash and (time.time() - cached_ts) < ttl_sec and cached_text`
(an absent cache dict yields `None`/`0`/`None` and thus never hits). -/
def feedback_cache_hit (cache : Option FeedbackCacheEntry)
    (prompt_hash : String) (now : Int) : Bool :=
  match cache with
  | none => false
  | some c =>
    c.prompt_hash = prompt_hash ∧ now - c.ts < feedback_ttl_sec ∧ c.text ≠ ""

/-- `BaseTrainingService._format_feedback_message` (default implementation). -/
def format_feedback_message (feedback : String) : String :=
  "💬 Обратная связь:\n\n" ++ feedback

/-- Result of one `get_feedback` call: the returned message, the updated
session slice, and whether the Gateway (`call_llm('feedback', ...)`) ran. -/
structure FeedbackResult where
  message : String
  session : FeedbackSession
  calledLLM : Bool
deriving DecidableEq, Repr

/-- `BaseTrainingService.get_feedback`: `prompt` is the fully-rendered
feedback prompt built from the session (`build_feedback_prompt`), `hashFn`
the content hash (SHA-256 hex digest in the source), `now` the current time
and `llmText` the text the Gateway would return on a miss.  On a hit the
cached text is returned without calling the Gateway; on a miss the Gateway
is called and `{hash, now, text}` overwrites the slot. -/
def get_feedback (hashFn : String → String) (sess : FeedbackSession)
    (prompt : String) (now : Int) (llmText : String) : FeedbackResult :=
  if sess.last_question_type = "" then
    ⟨"Сначала задайте вопрос клиенту.", sess, false⟩
  else if feedback_cache_hit sess.feedback_cache (hashFn prompt) now then
    match sess.feedback_cache with
    | some c => ⟨format_feedback_message c.text, sess, false⟩
    | none => ⟨format_feedback_message llmText,
        { sess with feedback_cache := some ⟨hashFn prompt, now, llmText⟩ }, true⟩
  else
    ⟨format_feedback_message llmText,
      { sess with feedback_cache := some ⟨hashFn prompt, now, llmText⟩ }, true⟩

/-! ## Feedback anti-duplication guard (`bot.py`, handle_message, branch
`message_text.upper() == 'ДА'`) -/

/-- The session slice used by the guard. -/
structure FeedbackGuard where
  feedback_in_progress : Bool
  last_feedback_ts : Int
deriving DecidableEq, Repr

/-- `cooldown_sec = 5`. -/
def cooldown_sec : Int := 5

/-- Outcome of the feedback generation body (streaming or non-streaming
path): a produced text, or a raised exception. -/
inductive GenOutcome where
  | produced (text : String)
  | raised
deriving DecidableEq, Repr

/-- The reply sent when the guard blocks the request. -/
def feedbackBusyReply : String :=
  "Фидбек уже генерируется, подождите пару секунд..."

/-- Result of one feedback request: the user-visible reply, whether a
generation was started, and the guard state after the `finally` block. -/
structure GuardResult where
  reply : String
  started : Bool
  guard : FeedbackGuard
deriving DecidableEq, Repr

/-- The feedback branch of `handle_message`: if `feedback_in_progress` is set
or less than `cooldown_sec` elapsed since `last_feedback_ts`, reply
"already in progress" without starting a generation; otherwise run the
generation (success replies with the text, an exception replies with the
scenario's generic error message `error_reply`).  The `finally` block always
clears `feedback_in_progress` and stamps `last_feedback_ts` with the time at
completion (`fin_ts`) — including on the early blocked return, since that
`return` sits inside the same `try`. -/
def handle_feedback_request (g : FeedbackGuard) (now_ts fin_ts : Int)
    (outcome : GenOutcome) (error_reply : String) : GuardResult :=
  if g.feedback_in_progress = true ∨ now_ts - g.last_feedback_ts < cooldown_sec then
    ⟨feedbackBusyReply, false, ⟨false, fin_ts⟩⟩
  else
    match outcome with
    | .produced t => ⟨t, true, ⟨false, fin_ts⟩⟩
    | .raised => ⟨error_reply, true, ⟨false, fin_ts⟩⟩

/-! ## Active-listening detector (`modules/active_listening/detector.py`)

Texts are handled as `List Char`.  Python's unicode-aware `\w`, `\s` and
`str.lower()` are modelled over the alphabets this bot processes (ASCII,
Cyrillic, and the Greek/punctuation characters occurring in the source's
double-encoded literals). -/

/-- Python regex `\w` word character: ASCII alphanumerics, underscore,
Cyrillic letters (U+0400-U+04FF) and Greek letters (U+0370-U+03FF). -/
def isWordChar (c : Char) : Bool :=
  c.isAlphanum || c = '_' ||
    (0x400 ≤ c.toNat && c.toNat ≤ 0x4FF) ||
    (0x370 ≤ c.toNat && c.toNat ≤ 0x3FF)

/-- `str.lower()` per character (ASCII plus Cyrillic А-Я and Ё). -/
def pyLowerChar (c : Char) : Char :=
  if 0x410 ≤ c.toNat ∧ c.toNat ≤ 0x42F then Char.ofNat (c.toNat + 0x20)
  else if c.toNat = 0x401 then Char.ofNat 0x451
  else c.toLower

/-- `str.lower()`. -/
def pyLower (s : List Char) : List Char := s.map pyLowerChar

/-- `str.strip()`. -/
def pyStrip (s : List Char) : List Char :=
  ((s.dropWhile Char.isWhitespace).reverse.dropWhile Char.isWhitespace).reverse

/-- Python substring test `needle in hay`. -/
def listContains (needle : List Char) : List Char → Bool
  | [] => needle.isEmpty
  | c :: t => needle.isPrefixOf (c :: t) || listContains needle t

/-- Character class `[\d\s.,]` of the number regex. -/
def isNumClassChar (c : Char) : Bool :=
  c.isDigit || c.isWhitespace || c = '.' || c = ','

/-- Is the (possibly absent) character at a position a word character? -/
def wordAt : Option Char → Bool
  | some c => isWordChar c
  | none => false

/-- Word boundary `\b` between `run[k-1]` and the character after it (the
next run character if `k < run.length`, else the first character past the
maximal run). -/
def boundaryAfter (run rest : List Char) (k : Nat) : Bool :=
  wordAt (run.get? (k - 1)) !=
    wordAt (if k < run.length then run.get? k else rest.head?)

/-- Greedy matching of `\d+[\d\s.,]*` followed by `\b`, with backtracking:
the largest `k ∈ [1, run.length]` with a word boundary after position `k`. -/
def backtrackEnd (run rest : List Char) : Option Nat :=
  ((List.range run.length).reverse.map (fun i => i + 1)).find?
    (fun k => boundaryAfter run rest k)

/-- `re.findall(r"\b\d+[\d\s.,]*\b", ...)` scan: at a position whose previous
character is not a word character and whose character is a digit, take the
maximal run inside the class, backtrack to a trailing word boundary, emit
the match and resume after it; otherwise advance one character.  The first
argument is fuel (the text length suffices, as each step consumes at least
one character). -/
def scanNumbers : Nat → Bool → List Char → List (List Char)
  | 0, _, _ => []
  | _ + 1, _, [] => []
  | fuel + 1, prevWord, c :: cs =>
    if c.isDigit && !prevWord then
      let run := c :: cs.takeWhile isNumClassChar
      let rest := cs.drop (cs.takeWhile isNumClassChar).length
      match backtrackEnd run rest with
      | some k =>
        run.take k :: scanNumbers fuel (wordAt (run.get? (k - 1))) (run.drop k ++ rest)
      | none => scanNumbers fuel (isWordChar c) cs
    else
      scanNumbers fuel (isWordChar c) cs

/-- `re.findall(r"\b\d+[\d\s.,]*\b", s)`. -/
def findNumbers (s : List Char) : List (List Char) :=
  scanNumbers s.length false s

/-- Maximal word-character runs, left to right (fuel as above). -/
def wordRuns : Nat → List Char → List (List Char)
  | 0, _ => []
  | _ + 1, [] => []
  | fuel + 1, c :: cs =>
    if isWordChar c then
      (c :: cs.takeWhile isWordChar) ::
        wordRuns fuel (cs.drop (cs.takeWhile isWordChar).length)
    else
      wordRuns fuel cs

/-- `re.findall(r'\b\w{4,}\b', s)`: exactly the maximal word-character runs
of length at least 4. -/
def findWords (s : List Char) : List (List Char) :=
  (wordRuns s.length s).filter (fun w => 4 ≤ w.length)

/-- The hard-coded `stop_words` set of `_check_with_heuristic`.  The Russian
entries are double-encoded in the source file and are reproduced here
byte-for-byte via unicode escapes (the final entry repeats an earlier one;
as in the Python set literal, membership is unaffected). -/
def stop_words : List String :=
  ["the", "and", "for", "are", "but", "not", "you", "all",
   "can", "her", "was", "one", "our", "out", "day", "get",
   "—ç—Ç–æ",
   "—á—Ç–æ",
   "–∫–∞–∫",
   "–¥–ª—è",
   "–∏–ª–∏",
   "–º–Ω–µ",
   "–≤–∞—Å",
   "–Ω–∞—Å",
   "–≤—Å–µ",
   "—Ç–∞–º",
   "–≤–æ—Ç",
   "–µ—â–µ",
   "–≥–¥–µ",
   "—É–∂–µ",
   "—Ç–∞–∫",
   "–≤–æ—Ç"]

/-- Rule 1 of `_check_with_heuristic`: some number found in the (lowered)
reply occurs, stripped, verbatim in the (lowered) question. -/
def rule_numbers (q resp : List Char) : Bool :=
  (findNumbers resp).any (fun num =>
    !(pyStrip num).isEmpty && listContains (pyStrip num) q)

/-- Rule 2: some configured context marker (lowercased) occurs in the
(lowered) question. -/
def rule_markers (markers : List String) (q : List Char) : Bool :=
  markers.any (fun m => listContains (pyLower m.toList) q)

/-- The distinct meaningful words of a text: word tokens of length ≥ 4 that
are not stop words (Python builds a set; `dedup` plays that role). -/
def meaningfulWords (s : List Char) : List (List Char) :=
  ((findWords s).filter
    (fun w => !(stop_words.map String.toList).contains w)).dedup

/-- Rule 3: the question and the reply share at least 3 distinct meaningful
words. -/
def rule_keywords (q resp : List Char) : Bool :=
  3 ≤ ((meaningfulWords resp).filter
    (fun w => (meaningfulWords q).contains w)).length

/-- `ActiveListeningDetector._check_with_heuristic`: both texts lowered,
then rules 1-3 in order, true at the first hit. -/
def check_with_heuristic (markers : List String)
    (question last_response : String) : Bool :=
  rule_numbers (pyLower question.toList) (pyLower last_response.toList) ||
  rule_markers markers (pyLower question.toList) ||
  rule_keywords (pyLower question.toList) (pyLower last_response.toList)

/-- `ActiveListeningConfig` constructor arguments.  (`llm_fallback` is kept
for fidelity although it is dead in `check_context_usage`, because
`_check_with_llm` catches all its own exceptions and returns `None`.) -/
structure ActiveListeningConfig where
  enabled : Bool
  use_llm : Bool
  llm_fallback : Bool
  context_markers : List String
  bonus_points : Int
  language : String
deriving DecidableEq, Repr

/-- `ActiveListeningConfig.DEFAULT_CONTEXT_MARKERS` (double-encoded Russian
phrases, reproduced byte-for-byte from the source via unicode escapes). -/
def DEFAULT_CONTEXT_MARKERS : List String :=
  ["–∫–∞–∫ –≤—ã —Å–∫–∞–∑–∞–ª–∏",
   "–≤—ã —Å–∫–∞–∑–∞–ª–∏",
   "–≤—ã —É–ø–æ–º—è–Ω—É–ª–∏",
   "–≤—ã –≥–æ–≤–æ—Ä–∏–ª–∏",
   "—É—Ç–æ—á–Ω–∏—Ç–µ",
   "–ø–æ –ø–æ–≤–æ–¥—É",
   "—ç—Ç–∏—Ö",
   "—ç—Ç–æ–π –ø—Ä–æ–±–ª–µ–º—ã",
   "—ç—Ç–æ–π —Å–∏—Ç—É–∞—Ü–∏–∏",
   "—Ç–æ–π —Å–∏—Ç—É–∞—Ü–∏–∏",
   "—ç—Ç–æ–≥–æ",
   "—Ç–æ–≥–æ, —á—Ç–æ –≤—ã",
   "–≤ —Å–≤—è–∑–∏ —Å —Ç–µ–º",
   "–∫–∞—Å–∞—Ç–µ–ª—å–Ω–æ",
   "–æ—Ç–Ω–æ—Å–∏—Ç–µ–ª—å–Ω–æ",
   "–æ —á–µ–º –≤—ã",
   "—á—Ç–æ –≤—ã –∏–º–µ–ª–∏ –≤ –≤–∏–¥—É"]

/-- `ActiveListeningConfig.ENGLISH_CONTEXT_MARKERS`. -/
def ENGLISH_CONTEXT_MARKERS : List String :=
  ["as you said", "you said", "you mentioned", "you spoke about", "clarify",
   "regarding", "about that", "about this", "about the", "what you meant",
   "what you said"]

/-- The default configuration: `enabled=True, use_llm=True,
llm_fallback=True, bonus_points=5, language="ru"`, Russian markers. -/
def defaultALConfig : ActiveListeningConfig :=
  ⟨true, true, true, DEFAULT_CONTEXT_MARKERS, 5, "ru"⟩

/-- Outcome of the `call_llm_func('context', ...)` coroutine: the raw reply
string, or a raised exception. -/
inductive ContextLLMOutcome where
  | ok (raw : String)
  | exn
deriving DecidableEq, Repr

/-- `ActiveListeningDetector._check_with_llm`: strip and lowercase the raw
reply; "yes" without "no" gives `some true`, else containing "no" gives
`some false`; anything unrecognized — or an exception, all of which this
method catches — gives `none`. -/
def check_with_llm : ContextLLMOutcome → Option Bool
  | .exn => none
  | .ok raw =>
    if listContains ("yes".toList) (pyLower (pyStrip raw.toList)) &&
        !listContains ("no".toList) (pyLower (pyStrip raw.toList)) then
      some true
    else if listContains ("no".toList) (pyLower (pyStrip raw.toList)) then
      some false
    else
      none

/-- `ActiveListeningDetector.check_context_usage`.  `llm = none` models
`call_llm_func=None`; the detector consults the LLM first whenever
`use_llm` holds and a function was passed, returns its definite verdict
directly, and falls back to the heuristic otherwise (including when the
LLM reply is unrecognized or the call raised). -/
def check_context_usage (cfg : ActiveListeningConfig)
    (llm : Option ContextLLMOutcome) (question last_response : String) : Bool :=
  if !cfg.enabled then false
  else if last_response = "" then false
  else
    match (if cfg.use_llm then llm else none) with
    | some oc =>
      match check_with_llm oc with
      | some b => b
      | none => check_with_heuristic cfg.context_markers question last_response
    | none => check_with_heuristic cfg.context_markers question last_response

end SpinBot

/-! ## Theorems -/

namespace SpinBot

/-- Helper: if every attempt fails, the primary loop returns no text and
makes exactly `n` calls. -/
theorem tryPrimary_all_err (f : Nat → AttemptResult)
    (h : ∀ i, (f i).isErr = true) :
    ∀ n start, tryPrimary f start n = (none, n) := by
  intro n
  induction n with
  | zero => intro start; rfl
  | succ n ih =>
    intro start
    have hs := h start
    cases hf : f start with
    | ok t => rw [hf] at hs; simp [AttemptResult.isErr] at hs
    | err m => simp [tryPrimary, hf, ih (start + 1)]

/-- Claim C1: for every kind and every pair of prompts, if every primary
attempt and the single fallback attempt fail, `call_llm` returns the fixed
user-safe error string (it never propagates a provider error to its caller). -/
theorem call_llm_total_failure_returns_error_string
    (maxRetries : Nat) (kind : Kind) (sp um : String) (oracle : LLMOracle)
    (hp : ∀ i, (oracle.primary i sp um).isErr = true)
    (hf : (oracle.fallback sp um).isErr = true) :
    call_llm maxRetries kind sp um oracle = llmErrorString := by
  unfold call_llm call_llm_traced
  rw [tryPrimary_all_err (fun i => oracle.primary i sp um) hp]
  cases hfb : oracle.fallback sp um with
  | ok t => rw [hfb] at hf; simp [AttemptResult.isErr] at hf
  | err m => simp

/-- Witness for C1 at a concrete always-failing oracle. -/
theorem call_llm_total_failure_returns_error_string_witness :
    call_llm 1 Kind.response "s" "u"
      ⟨fun _ _ _ => .err "boom", fun _ _ => .err "boom"⟩ = llmErrorString :=
  call_llm_total_failure_returns_error_string 1 Kind.response "s" "u"
    ⟨fun _ _ _ => .err "boom", fun _ _ => .err "boom"⟩
    (fun _ => rfl) rfl

/-- Claim C4: the default retry budget is 1; for `kind ≠ feedback` with an
always-failing primary, the primary is attempted `maxRetries + 1` times
(the first attempt plus `maxRetries` retries) and then the fallback is
invoked; for `kind = feedback` a single failing primary attempt leads
directly to the fallback, with no primary retry. -/
theorem call_llm_retry_schedule
    (maxRetries : Nat) (kind : Kind) (sp um : String) (oracle : LLMOracle) :
    LLM_MAX_RETRIES = 1 ∧
    (kind ≠ Kind.feedback → (∀ i, (oracle.primary i sp um).isErr = true) →
      (call_llm_traced maxRetries kind sp um oracle).primaryCalls = maxRetries + 1 ∧
      (call_llm_traced maxRetries kind sp um oracle).fallbackCalled = true) ∧
    (kind = Kind.feedback → (oracle.primary 0 sp um).isErr = true →
      (call_llm_traced maxRetries kind sp um oracle).primaryCalls = 1 ∧
      (call_llm_traced maxRetries kind sp um oracle).fallbackCalled = true) := by
  refine ⟨rfl, ?_, ?_⟩
  · intro hk hp
    unfold call_llm_traced
    rw [tryPrimary_all_err (fun i => oracle.primary i sp um) hp]
    have : (if kind = Kind.feedback then 0 else maxRetries) = maxRetries := by
      simp [hk]
    rw [this]
    cases oracle.fallback sp um <;> simp
  · intro hk hp
    unfold call_llm_traced
    rw [hk]
    simp only [if_pos rfl]
    cases hf : oracle.primary 0 sp um with
    | ok t => rw [hf] at hp; simp [AttemptResult.isErr] at hp
    | err m =>
      simp [tryPrimary, hf]
      cases oracle.fallback sp um <;> simp

/-- Witness for C4: a failing primary with `maxRetries = 1` is called twice
for `response` and once for `feedback`, with the fallback invoked in both. -/
theorem call_llm_retry_schedule_witness :
    (call_llm_traced 1 Kind.response "s" "u"
      ⟨fun _ _ _ => .err "e", fun _ _ => .ok "fb"⟩).primaryCalls = 2 ∧
    (call_llm_traced 1 Kind.feedback "s" "u"
      ⟨fun _ _ _ => .err "e", fun _ _ => .ok "fb"⟩).primaryCalls = 1 := by
  refine ⟨?_, ?_⟩
  · have h := call_llm_retry_schedule 1 Kind.response "s" "u"
      ⟨fun _ _ _ => .err "e", fun _ _ => .ok "fb"⟩
    exact (h.2.1 (by decide) (fun _ => rfl)).1
  · have h := call_llm_retry_schedule 1 Kind.feedback "s" "u"
      ⟨fun _ _ _ => .err "e", fun _ _ => .ok "fb"⟩
    exact (h.2.2 rfl rfl).1

/-- Claim C2: `check_training_completion` returns `(true, "max_questions")`
whenever `question_count ≥ max_questions` regardless of clarity; otherwise it
returns `(true, "clarity_reached")` exactly when
`clarity_level ≥ target_clarity ∧ question_count ≥ min_questions_for_completion`,
and `(false, "")` in all remaining cases; in particular the stated
`max_questions = 10` and `target_clarity = 80, min = 5` instances hold. -/
theorem check_training_completion_spec
    (qc cl : Int) (rules : GameRules) :
    (qc ≥ rules.max_questions →
      check_training_completion qc cl rules = (true, "max_questions")) ∧
    (¬ qc ≥ rules.max_questions →
      ((cl ≥ rules.target_clarity ∧ qc ≥ rules.min_questions_for_completion) →
        check_training_completion qc cl rules = (true, "clarity_reached")) ∧
      (¬ (cl ≥ rules.target_clarity ∧ qc ≥ rules.min_questions_for_completion) →
        check_training_completion qc cl rules = (false, ""))) ∧
    check_training_completion 10 cl ⟨10, 80, 5⟩ = (true, "max_questions") ∧
    check_training_completion 7 80 ⟨10, 80, 5⟩ = (true, "clarity_reached") := by
  refine ⟨?_, ?_, ?_, ?_⟩
  · intro h
    simp [check_training_completion, if_pos h]
  · intro h
    refine ⟨?_, ?_⟩
    · intro h2
      simp [check_training_completion, if_neg h, if_pos h2]
    · intro h2
      simp [check_training_completion, if_neg h, if_neg h2]
  · simp [check_training_completion]
  · simp [check_training_completion]

/-- Witness for C2 at concrete counters and rules. -/
theorem check_training_completion_spec_witness :
    check_training_completion 10 0 ⟨10, 80, 5⟩ = (true, "max_questions") ∧
    check_training_completion 7 80 ⟨10, 80, 5⟩ = (true, "clarity_reached") ∧
    check_training_completion 3 10 ⟨10, 80, 5⟩ = (false, "") := by
  have h := check_training_completion_spec 10 0 (⟨10, 80, 5⟩ : GameRules)
  have h7 := check_training_completion_spec 7 80 (⟨10, 80, 5⟩ : GameRules)
  have h3 := check_training_completion_spec 3 10 (⟨10, 80, 5⟩ : GameRules)
  refine ⟨h.1 (by decide), (h7.2.1 (by decide)).1 (by decide),
    (h3.2.1 (by decide)).2 (by decide)⟩

/-- Helper: one accepted question with non-negative increment and bonus keeps
clarity non-negative and caps it at 100. -/
theorem process_question_clarity_bounds (c : Int) (e : QuestionEvent)
    (hc : 0 ≤ c) (hinc : 0 ≤ e.clarity_increase) (hb : 0 ≤ e.bonus_points) :
    0 ≤ process_question_clarity c e ∧ process_question_clarity c e ≤ 100 := by
  unfold process_question_clarity apply_active_listening_bonus
    clarity_after_type_increment
  have h1 : (0 : Int) ≤ min (c + e.clarity_increase) 100 := by
    apply le_min (by omega) (by omega)
  cases e.contextual <;> simp only [if_true, if_false, Bool.false_eq_true] <;>
    constructor <;> omega

/-- Helper: folding accepted questions from a clarity value inside `[0,100]`
stays inside `[0,100]`. -/
theorem foldl_clarity_bounds (l : List QuestionEvent) :
    ∀ c : Int, 0 ≤ c → c ≤ 100 →
      (∀ e ∈ l, 0 ≤ e.clarity_increase ∧ 0 ≤ e.bonus_points) →
      0 ≤ l.foldl process_question_clarity c ∧
        l.foldl process_question_clarity c ≤ 100 := by
  induction l with
  | nil => intro c h0 h100 _; exact ⟨h0, h100⟩
  | cons e t ih =>
    intro c h0 h100 hall
    have he := hall e (List.mem_cons_self e t)
    have hstep := process_question_clarity_bounds c e h0 he.1 he.2
    simpa using ih (process_question_clarity c e) hstep.1 hstep.2
      (fun x hx => hall x (List.mem_cons_of_mem e hx))

/-- Claim C3: along any sequence of accepted question submissions whose type
increments and active-listening bonuses are non-negative, the session's
clarity level stays within `[0,100]` after every update (every prefix of the
sequence, starting from the fresh session's 0). -/
theorem clarity_level_invariant (events : List QuestionEvent)
    (h : ∀ e ∈ events, 0 ≤ e.clarity_increase ∧ 0 ≤ e.bonus_points) :
    ∀ n : Nat, 0 ≤ run_session_clarity (events.take n) ∧
      run_session_clarity (events.take n) ≤ 100 := by
  intro n
  exact foldl_clarity_bounds (events.take n) 0 le_rfl (by omega)
    (fun e he => h e (List.take_subset n events he))

/-- Witness for C3 on a concrete two-question session. -/
theorem clarity_level_invariant_witness :
    0 ≤ run_session_clarity [⟨20, false, 5⟩, ⟨95, true, 5⟩] ∧
    run_session_clarity [⟨20, false, 5⟩, ⟨95, true, 5⟩] ≤ 100 := by
  have h := clarity_level_invariant [⟨20, false, 5⟩, ⟨95, true, 5⟩]
    (by decide) 2
  simpa using h

/-- Claim C9: `reset_session` is a frame: it resets exactly the session
fields (counters to 0, `per_type_counts` zeroed over the scenario's question
types, case data and last reply cleared, `chat_state = 'waiting_start'`) and
leaves the user's stats object unchanged. -/
theorem reset_session_frame (u : UserData) (qtypes : List String) :
    (reset_session u qtypes).stats = u.stats ∧
    (reset_session u qtypes).session.question_count = 0 ∧
    (reset_session u qtypes).session.clarity_level = 0 ∧
    (reset_session u qtypes).session.per_type_counts =
      qtypes.map (fun t => (t, 0)) ∧
    (reset_session u qtypes).session.case_data = none ∧
    (reset_session u qtypes).session.client_case = "" ∧
    (reset_session u qtypes).session.last_question_type = "" ∧
    (reset_session u qtypes).session.last_client_response = "" ∧
    (reset_session u qtypes).session.contextual_questions = 0 ∧
    (reset_session u qtypes).session.chat_state = "waiting_start" := by
  refine ⟨rfl, rfl, rfl, rfl, rfl, rfl, rfl, rfl, rfl, rfl⟩

/-- Claim C10: `update_stats` sets `best_score` to the max of the previous
best and the session score, adds the score to `total_xp`, and increments
`total_trainings` by exactly 1; hence for non-negative scores `best_score`
and `total_xp` never decrease across calls. -/
theorem update_stats_monotone (u : UserData) (score : Int)
    (levels : List LevelDef) (now_date : String) :
    (update_stats u score levels now_date).stats.best_score =
      max u.stats.best_score score ∧
    (update_stats u score levels now_date).stats.total_xp =
      u.stats.total_xp + score ∧
    (update_stats u score levels now_date).stats.total_trainings =
      u.stats.total_trainings + 1 ∧
    (0 ≤ score →
      u.stats.best_score ≤ (update_stats u score levels now_date).stats.best_score ∧
      u.stats.total_xp ≤ (update_stats u score levels now_date).stats.total_xp) := by
  refine ⟨rfl, rfl, rfl, fun hs => ⟨le_max_left _ _, ?_⟩⟩
  show u.stats.total_xp ≤ u.stats.total_xp + score
  omega

/-- Counterexample to C5 as stated: with a pre-existing cache entry written
at time 0, two requests at `t1 = 1199` and `t2 = 1201` (2 seconds apart,
well inside the 20-minute TTL of each other) return different texts: the
first is a hit on the old entry, the entry then expires, and the second
calls the Gateway again.  So "two requests within the TTL with unchanged
session state return identical text, the second served from the cache" fails
when the slot's entry expires between the two requests. -/
theorem get_feedback_stale_entry_counterexample :
    (get_feedback (fun s => s) ⟨"situational", some ⟨"p", 0, "old"⟩⟩
        "p" 1199 "first").calledLLM = false ∧
    (get_feedback (fun s => s)
        (get_feedback (fun s => s) ⟨"situational", some ⟨"p", 0, "old"⟩⟩
          "p" 1199 "first").session
        "p" 1201 "new").calledLLM = true ∧
    (get_feedback (fun s => s) ⟨"situational", some ⟨"p", 0, "old"⟩⟩
        "p" 1199 "first").message ≠
      (get_feedback (fun s => s)
        (get_feedback (fun s => s) ⟨"situational", some ⟨"p", 0, "old"⟩⟩
          "p" 1199 "first").session
        "p" 1201 "new").message ∧
    (1201 : Int) - 1199 < feedback_ttl_sec := by
  refine ⟨rfl, rfl, ?_, by decide⟩
  decide

/-- Claim C5 (amended): two feedback requests with unchanged session state
and the same rendered prompt, the second within the TTL of the first, issue
at most one Gateway call; and the texts are identical whenever the first
request was a cache miss (the usual case: the first call writes
`{hash, now, text}` into the slot and the second is served from it), or the
pre-existing entry is still within its TTL at the second request. -/
theorem get_feedback_idempotent (hashFn : String → String)
    (sess : FeedbackSession) (prompt : String) (t1 t2 : Int)
    (llm1 llm2 : String)
    (hlqt : sess.last_question_type ≠ "")
    (hllm1 : llm1 ≠ "")
    (ht : t2 - t1 < feedback_ttl_sec) :
    ¬((get_feedback hashFn sess prompt t1 llm1).calledLLM = true ∧
      (get_feedback hashFn
        (get_feedback hashFn sess prompt t1 llm1).session prompt t2 llm2).calledLLM = true) ∧
    ((get_feedback hashFn sess prompt t1 llm1).calledLLM = true →
      (get_feedback hashFn sess prompt t1 llm1).session.feedback_cache =
        some ⟨hashFn prompt, t1, llm1⟩ ∧
      (get_feedback hashFn
        (get_feedback hashFn sess prompt t1 llm1).session prompt t2 llm2).message =
        (get_feedback hashFn sess prompt t1 llm1).message ∧
      (get_feedback hashFn
        (get_feedback hashFn sess prompt t1 llm1).session prompt t2 llm2).calledLLM = false) ∧
    ((get_feedback hashFn sess prompt t1 llm1).calledLLM = false →
      feedback_cache_hit sess.feedback_cache (hashFn prompt) t2 = true →
      (get_feedback hashFn
        (get_feedback hashFn sess prompt t1 llm1).session prompt t2 llm2).message =
        (get_feedback hashFn sess prompt t1 llm1).message ∧
      (get_feedback hashFn
        (get_feedback hashFn sess prompt t1 llm1).session prompt t2 llm2).calledLLM = false) := by
  have hmiss : ∀ s' : FeedbackSession,
      s'.last_question_type = sess.last_question_type →
      s'.feedback_cache = some ⟨hashFn prompt, t1, llm1⟩ →
      (get_feedback hashFn s' prompt t2 llm2).message =
        format_feedback_message llm1 ∧
      (get_feedback hashFn s' prompt t2 llm2).calledLLM = false := by
    intro s' hl hcache
    have hlqt2 : ¬ s'.last_question_type = "" := by rw [hl]; exact hlqt
    have hhit : feedback_cache_hit s'.feedback_cache (hashFn prompt) t2 = true := by
      rw [hcache]
      simp [feedback_cache_hit, decide_eq_true_eq]
      exact ⟨ht, hllm1⟩
    unfold get_feedback
    rw [if_neg hlqt2, if_pos hhit, hcache]
    exact ⟨rfl, rfl⟩
  by_cases hhit1 : feedback_cache_hit sess.feedback_cache (hashFn prompt) t1 = true
  · -- first request is a cache hit: session unchanged, no Gateway call
    cases hc : sess.feedback_cache with
    | none => rw [hc] at hhit1; simp [feedback_cache_hit] at hhit1
    | some c =>
      have hr1 : get_feedback hashFn sess prompt t1 llm1 =
          ⟨format_feedback_message c.text, sess, false⟩ := by
        unfold get_feedback
        rw [if_neg hlqt, if_pos hhit1, hc]
      rw [hr1]
      refine ⟨by simp, by simp, ?_⟩
      intro _ hhit2
      have hr2 : get_feedback hashFn sess prompt t2 llm2 =
          ⟨format_feedback_message c.text, sess, false⟩ := by
        unfold get_feedback
        rw [if_neg hlqt, hc, if_pos hhit2]
      rw [hr2]
      exact ⟨rfl, rfl⟩
  · -- first request is a miss: the slot is overwritten, second request hits
    have hr1 : get_feedback hashFn sess prompt t1 llm1 =
        ⟨format_feedback_message llm1,
          { sess with feedback_cache := some ⟨hashFn prompt, t1, llm1⟩ }, true⟩ := by
      unfold get_feedback
      rw [if_neg hlqt, if_neg hhit1]
    rw [hr1]
    have h2 := hmiss { sess with feedback_cache := some ⟨hashFn prompt, t1, llm1⟩ }
      rfl rfl
    refine ⟨fun hcc => by rw [h2.2] at hcc; exact Bool.false_ne_true hcc.2, ?_, ?_⟩
    · intro _
      exact ⟨rfl, h2.1, h2.2⟩
    · intro hfalse
      exact absurd hfalse (by simp)

/-- Witness for C5 (amended) on a concrete empty-cache session. -/
theorem get_feedback_idempotent_witness :
    (get_feedback (fun s => s)
      (get_feedback (fun s => s) ⟨"situational", none⟩ "p" 0 "fb").session
      "p" 60 "other").message =
      (get_feedback (fun s => s) ⟨"situational", none⟩ "p" 0 "fb").message := by
  have h := get_feedback_idempotent (fun s => s) ⟨"situational", none⟩ "p" 0 60
    "fb" "other" (by decide) (by decide) (by decide)
  exact (h.2.1 rfl).2.1

/-- Claim C6: the feedback branch of `handle_message` never starts a second
generation while one is outstanding: if `feedback_in_progress` is set or less
than the 5-second cooldown elapsed since `last_feedback_ts`, it replies
"already in progress" without starting a generation; and on every path
(success or failure alike) the `finally` block clears `feedback_in_progress`
and stamps `last_feedback_ts`. -/
theorem feedback_guard_spec (g : FeedbackGuard) (now_ts fin_ts : Int)
    (outcome : GenOutcome) (error_reply : String) :
    ((g.feedback_in_progress = true ∨
        now_ts - g.last_feedback_ts < cooldown_sec) →
      (handle_feedback_request g now_ts fin_ts outcome error_reply).started = false ∧
      (handle_feedback_request g now_ts fin_ts outcome error_reply).reply =
        feedbackBusyReply) ∧
    (handle_feedback_request g now_ts fin_ts outcome error_reply).guard.feedback_in_progress
      = false ∧
    (handle_feedback_request g now_ts fin_ts outcome error_reply).guard.last_feedback_ts
      = fin_ts := by
  unfold handle_feedback_request
  by_cases hg : g.feedback_in_progress = true ∨
      now_ts - g.last_feedback_ts < cooldown_sec
  · rw [if_pos hg]
    exact ⟨fun _ => ⟨rfl, rfl⟩, rfl, rfl⟩
  · rw [if_neg hg]
    cases outcome with
    | produced t => exact ⟨fun h => absurd h hg, rfl, rfl⟩
    | raised => exact ⟨fun h => absurd h hg, rfl, rfl⟩

/-- Witness for C6: a request arriving while a generation is in progress is
blocked, and the guard ends cleared and stamped. -/
theorem feedback_guard_spec_witness :
    (handle_feedback_request ⟨true, 0⟩ 10 11 (.produced "x") "err").started
      = false ∧
    (handle_feedback_request ⟨true, 0⟩ 10 11
      (.produced "x") "err").guard.feedback_in_progress = false := by
  have h := feedback_guard_spec ⟨true, 0⟩ 10 11 (.produced "x") "err"
  exact ⟨(h.1 (Or.inl rfl)).1, h.2.1⟩

/-- Witness for C10 at a concrete user and score. -/
theorem update_stats_monotone_witness :
    (update_stats
      ⟨⟨3, 50, [], "", none, "t", "training_active", 1, "r", 0⟩,
        ⟨1, 3, 40, 40, 1, [], ⟨false, 1, 1⟩, 0, none⟩⟩
      60 [⟨1, 0⟩, ⟨2, 100⟩] "2026-01-01").stats.best_score = 60 ∧
    (40 : Int) ≤ (update_stats
      ⟨⟨3, 50, [], "", none, "t", "training_active", 1, "r", 0⟩,
        ⟨1, 3, 40, 40, 1, [], ⟨false, 1, 1⟩, 0, none⟩⟩
      60 [⟨1, 0⟩, ⟨2, 100⟩] "2026-01-01").stats.total_xp := by
  have h := update_stats_monotone
    ⟨⟨3, 50, [], "", none, "t", "training_active", 1, "r", 0⟩,
      ⟨1, 3, 40, 40, 1, [], ⟨false, 1, 1⟩, 0, none⟩⟩
    60 [⟨1, 0⟩, ⟨2, 100⟩] "2026-01-01"
  refine ⟨by rw [h.1]; decide, (h.2.2.2 (by decide)).2⟩

/-- Claim C8: in heuristic-only mode (detector enabled, LLM path disabled or
no inference function passed), `check_context_usage` returns true for every
question containing, verbatim, a (stripped) numeric token extracted from the
non-empty last reply, both sides lowercased. -/
theorem heuristic_number_detection (cfg : ActiveListeningConfig)
    (llm : Option ContextLLMOutcome) (q resp : String)
    (hen : cfg.enabled = true)
    (hnol : cfg.use_llm = false  ∨ llm = none)
    (hresp : resp  ≠ "")
    (hnum : ∃ num  ∈ findNumbers (pyLower resp.toList),
      pyStrip num  ≠ []  ∧ listContains (pyStrip num) (pyLower q.toList) = true) :
    check_context_usage cfg llm q resp = true := by
  have hheur : check_with_heuristic cfg.context_markers q resp = true := by
    obtain ⟨num, hmem, hne, hsub⟩:= hnum
    have hempty : (pyStrip num).isEmpty = false := by
      cases hps : pyStrip num with
      | nil => exact absurd hps hne
      | cons a l => rfl
    have h1 : rule_numbers (pyLower q.toList) (pyLower resp.toList) = true := by
      unfold rule_numbers
      rw [List.any_eq_true]
      exact ⟨num, hmem, by rw [hempty, hsub]; rfl⟩
    unfold check_with_heuristic
    rw [h1]
    rfl
  rcases hnol with h | h
  · simp [check_context_usage, hen, h, hresp, hheur]
  · cases hu : cfg.use_llm <;>
      simp [check_context_usage, hen, h, hu, hresp, hheur]

/-- Witness for C8: with the LLM path disabled, a question repeating the
number 100 from the last reply is detected as contextual. -/
theorem heuristic_number_detection_witness :
    check_context_usage ⟨true, false, true, [], 5, "ru"⟩ none
      "why 100?" "we have 100 people" = true := by
  apply heuristic_number_detection _ _ _ _ rfl (Or.inl rfl) (by decide)
  decide

/-- Counterexample to C7 as stated: under the default configuration the LLM
is consulted first and its verdict is returned directly, so an LLM "no"
overrides a heuristic `true` — contradicting "the LLM judgment only
overrides a heuristic false result, is never used when the heuristic already
returned true".  Here the heuristic detects the repeated number 100 (true),
yet the detector returns false because the LLM replied "no". -/
theorem llm_overrides_heuristic_counterexample :
    check_with_heuristic defaultALConfig.context_markers
      "why 100?" "we have 100 people" = true  ∧
    check_context_usage defaultALConfig (some (.ok "no"))
      "why 100?" "we have 100 people" = false := by
  exact ⟨by decide, by decide⟩

/-- Claim C7 (amended): for every question and non-empty last reply with the
detector enabled, `check_context_usage` consults the Gateway FIRST whenever
the LLM path is configured, and an unambiguous yes/no verdict is returned
directly (it can override the heuristic in either direction); the local
heuristics are evaluated only when the LLM path is disabled or unavailable,
or when the inference call fails or returns an unrecognized reply, in which
case the heuristic result is returned (silent fallback). -/
theorem check_context_usage_llm_first (cfg : ActiveListeningConfig)
    (llm : Option ContextLLMOutcome) (q resp : String)
    (hen : cfg.enabled = true) (hresp : resp  ≠ "") :
    ((cfg.use_llm = false  ∨ llm = none)  →
      check_context_usage cfg llm q resp =
        check_with_heuristic cfg.context_markers q resp)  ∧
    (∀ oc : ContextLLMOutcome, cfg.use_llm = true  → llm = some oc  →
      (∀ b, check_with_llm oc = some b  →
        check_context_usage cfg llm q resp = b)  ∧
      (check_with_llm oc = none  →
        check_context_usage cfg llm q resp =
          check_with_heuristic cfg.context_markers q resp)) := by
  refine ⟨?_, ?_⟩
  · rintro (h | h)
    · simp [check_context_usage, hen, h, hresp]
    · cases hu : cfg.use_llm <;>
        simp [check_context_usage, hen, h, hu, hresp]
  · intro oc hu hl
    constructor
    · intro b hb
      simp [check_context_usage, hen, hu, hl, hresp, hb]
    · intro hb
      simp [check_context_usage, hen, hu, hl, hresp, hb]

/-- Witness for C7 (amended): an LLM "yes" verdict is returned directly. -/
theorem check_context_usage_llm_first_witness :
    check_context_usage defaultALConfig (some (.ok "yes")) "a" "b" = true := by
  have h := check_context_usage_llm_first defaultALConfig (some (.ok "yes"))
    "a" "b" rfl (by decide)
  exact (h.2 (.ok "yes") rfl rfl).1 true (by decide)

end SpinBot
